import Mathlib

/-!
Shallow embedding of the waldo footage service: the tRPC gameplay router
(apps/web/server/trpc/router/gameplay.ts), the protected-procedure middleware
(the trpc setup next to apps/web/utils/zod/gameplay.ts), and the express
footage controller (apps/backend/src/controllers/footage.controller.ts).
Pure data is modelled directly; the record store is explicit state (lists of
records); side effects that matter to the claims (video downloads, clip
extraction jobs) are returned as explicit traces.
-/

namespace Waldo

/-- Game title enumeration, from `GameplayTypes` in apps/web/utils/zod/gameplay.ts:
the closed set VAL, CSG, TF2, APE, COD, R6S. -/
inductive GameplayType where
  | VAL | CSG | TF2 | APE | COD | R6S
  deriving DecidableEq, Repr

/-- Error codes thrown via TRPCError in gameplay.ts. -/
inductive TRPCCode where
  | BAD_REQUEST
  | NOT_FOUND
  | UNAUTHORIZED
  | FORBIDDEN
  | INTERNAL_SERVER_ERROR
  deriving DecidableEq, Repr

/-- Modelled from the spec: the role enumeration of the session user. The auth
collaborator and the prisma schema that define the role values are not under
src/; section 3 of the spec gives "a role (ordinary / moderator / admin)". -/
inductive Role where
  | user | mod | admin
  deriving DecidableEq, Repr

/-- Session user as consumed by gameplay.ts: id, role and blacklist flag
(ctx.session.user.id / .role / .blacklisted). -/
structure User where
  id : String
  role : Role
  blacklisted : Bool
  deriving DecidableEq, Repr

/-- Permission levels, from the `Perms` values used at the call sites in
gameplay.ts (Perms.isOwner, Perms.roleMod) and section 4.1 of the spec. -/
inductive Perms where
  | isOwner | roleMod | roleAdmin
  deriving DecidableEq, Repr

/-- Modelled from the spec: the permission evaluator `hasPerms` is imported in
gameplay.ts from server/utils/hasPerms, which is not under src/. Section 4.1:
a blacklisted caller is denied regardless of level; `isOwner` holds when the
caller id equals the resource owner id or the caller has an elevated role;
`roleMod` requires role at least moderator; `roleAdmin` requires admin. -/
def hasPerms (userId : String) (userRole : Role) (itemOwnerId : String)
    (requiredPerms : Perms) (blacklisted : Bool) : Bool :=
  if blacklisted then false
  else
    match requiredPerms with
    | .isOwner => userId == itemOwnerId || userRole == .mod || userRole == .admin
    | .roleMod => userRole == .mod || userRole == .admin
    | .roleAdmin => userRole == .admin

/-- The `isAuthed` middleware wrapped around every protected procedure: a
missing session or session user yields UNAUTHORIZED; a blacklisted session
user yields FORBIDDEN; otherwise the handler runs with the session user. -/
def protectedCall {α : Type} (sessionUser : Option User)
    (handler : User → Except TRPCCode α) : Except TRPCCode α :=
  match sessionUser with
  | none => .error .UNAUTHORIZED
  | some user => if user.blacklisted then .error .FORBIDDEN else handler user

/-- Gameplay record of the web app. Fields id, userId, youtubeUrl,
gameplayType, isAnalyzed are those of `GameplaySchema`; `videoFormat` is set by
the create call. `isGameFootage` (the confirmed-game-footage flag) and the
creation defaults of the two boolean flags are modelled from the spec
(section 3 and section 4.3 step 5), since the prisma schema is not under
src/: both flags default to false at creation. -/
structure Gameplay where
  id : String
  userId : String
  youtubeUrl : String
  gameplayType : GameplayType
  isAnalyzed : Bool
  isGameFootage : Bool
  videoFormat : Nat
  deriving DecidableEq, Repr

/-- Vote record created by the review mutation: gameplayId, isGame,
actualGame, userId (prisma gameplayVotes.create in gameplay.ts). -/
structure GameplayVote where
  id : String
  gameplayId : String
  userId : String
  isGame : Bool
  actualGame : GameplayType
  deriving DecidableEq, Repr

/-- Clip record attached to a gameplay record (the `clips` relation included
by the getClips query in gameplay.ts). -/
structure GameplayClip where
  id : String
  gameplayId : String
  deriving DecidableEq, Repr

/-- The record store of the web app: gameplay records, vote records and clip
records. -/
structure Db where
  gameplays : List Gameplay
  votes : List GameplayVote
  clips : List GameplayClip
  deriving DecidableEq, Repr

/-- One video format of the resolver response, carrying its itag identifier
(ytdl-core format object, projected to the only field the code reads). -/
structure YtFormat where
  itag : Nat
  deriving DecidableEq, Repr

/-- Resolver response for a URL: the list of available formats
(`ytdl.getInfo` result, projected to `formats`). -/
structure YtInfo where
  formats : List YtFormat
  deriving DecidableEq, Repr

/-- Outcome of the tRPC create mutation: the returned value or thrown code,
the record store afterwards, and the effect traces (URLs downloaded, clip
extraction jobs started). -/
structure CreateOutcome where
  result : Except TRPCCode Gameplay
  db : Db
  downloads : List String
  clipJobs : List String
  deriving Repr

namespace gameplayRouter

/-- The create mutation of gameplayRouter. In source order: the store is
queried by youtubeUrl and a found record throws BAD_REQUEST before anything
else; then the resolver response `info` is inspected (itag 299, else 298, for
the default format; itag 136 for the low format); then the video is
downloaded to `footageId`.mp4 and `parseClips` is invoked; only after that, if
neither a default nor a low format matched, BAD_REQUEST is thrown; otherwise
the record is persisted with the store-assigned id `newId` and the two boolean
flags at their creation defaults. -/
def create (db : Db) (caller : User) (youtubeUrl : String)
    (gameplayType : GameplayType) (info : YtInfo) (footageId newId : String) :
    CreateOutcome :=
  match db.gameplays.find? (fun g => g.youtubeUrl == youtubeUrl) with
  | some _ => { result := .error .BAD_REQUEST, db := db, downloads := [], clipJobs := [] }
  | none =>
    let defaultFormat : Option YtFormat :=
      (info.formats.find? (fun f => f.itag == 299)).orElse
        (fun _ => info.formats.find? (fun f => f.itag == 298))
    let lowFormat : Option Nat :=
      if (info.formats.find? (fun f => f.itag == 136)).isSome then some 136 else none
    let downloads := [youtubeUrl]
    let clipJobs := [footageId]
    if defaultFormat.isNone && lowFormat.isNone then
      { result := .error .BAD_REQUEST, db := db, downloads := downloads, clipJobs := clipJobs }
    else
      let g : Gameplay :=
        { id := newId
          userId := caller.id
          youtubeUrl := youtubeUrl
          gameplayType := gameplayType
          isAnalyzed := false
          isGameFootage := false
          videoFormat :=
            match defaultFormat with
            | some f => f.itag
            | none => lowFormat.getD 0 }
      { result := .ok g
        db := { db with gameplays := db.gameplays ++ [g] }
        downloads := downloads
        clipJobs := clipJobs }

/-- The getMany query (GET /gameplay/dash): fixed take of 10, skip of
page*10-10. A negative skip is rejected by the store and the catch block maps
the failure to NOT_FOUND; otherwise the (optionally category-filtered) list is
paged by drop/take. The per-row gameplayCount decoration is omitted. -/
def getMany (db : Db) (page : Int) (filterGames : Option GameplayType) :
    Except TRPCCode (List Gameplay) :=
  let takeValue : Nat := 10
  let skipValue : Int := page * 10 - 10
  if skipValue < 0 then .error .NOT_FOUND
  else
    match filterGames with
    | none => .ok ((db.gameplays.drop skipValue.toNat).take takeValue)
    | some t =>
      .ok (((db.gameplays.filter (fun g => g.gameplayType == t)).drop skipValue.toNat).take takeValue)

/-- The update mutation. The whole handler body sits in a try block whose
catch rethrows every error as INTERNAL_SERVER_ERROR: a missing record
(findUniqueOrThrow) and the UNAUTHORIZED thrown on a failed permission check
both surface as INTERNAL_SERVER_ERROR. Changing isAnalyzed raises the
required permission from isOwner to roleMod. -/
def update (db : Db) (caller : User) (gameplayId : String)
    (gameplayType : GameplayType) (isAnalyzed : Bool) :
    Except TRPCCode Gameplay × Db :=
  match db.gameplays.find? (fun g => g.id == gameplayId) with
  | none => (.error .INTERNAL_SERVER_ERROR, db)
  | some g =>
    let requiredPerms := if g.isAnalyzed == isAnalyzed then Perms.isOwner else Perms.roleMod
    if !hasPerms caller.id caller.role g.userId requiredPerms caller.blacklisted then
      (.error .INTERNAL_SERVER_ERROR, db)
    else
      let g2 := { g with isAnalyzed := isAnalyzed, gameplayType := gameplayType }
      (.ok g2,
        { db with gameplays := db.gameplays.map (fun x => if x.id == gameplayId then g2 else x) })

/-- The delete mutation. Like update, every thrown error is re-surfaced as
INTERNAL_SERVER_ERROR by the catch block. On success only
prisma.gameplay.delete is issued: votes and clips are not touched. -/
def delete (db : Db) (caller : User) (gameplayId : String) :
    Except TRPCCode Unit × Db :=
  match db.gameplays.find? (fun g => g.id == gameplayId) with
  | none => (.error .INTERNAL_SERVER_ERROR, db)
  | some g =>
    if !hasPerms caller.id caller.role g.userId .isOwner caller.blacklisted then
      (.error .INTERNAL_SERVER_ERROR, db)
    else
      (.ok (), { db with gameplays := db.gameplays.filter (fun x => !(x.id == gameplayId)) })

end gameplayRouter

/-- Sort keys the getReviewItems query picks from at random:
userId, id, youtubeUrl. -/
inductive OrderKey where
  | userId | id | youtubeUrl
  deriving DecidableEq, Repr

/-- Sort directions the getReviewItems query picks from at random. -/
inductive OrderDir where
  | asc | desc
  deriving DecidableEq, Repr

/-- Projection of a gameplay record to the chosen sort key. -/
def sortKey (k : OrderKey) (g : Gameplay) : String :=
  match k with
  | .userId => g.userId
  | .id => g.id
  | .youtubeUrl => g.youtubeUrl

/-- Comparison used to order review candidates for a chosen key/direction. -/
def orderLe (k : OrderKey) (d : OrderDir) (a b : Gameplay) : Bool :=
  match d with
  | .asc => decide (sortKey k a ≤ sortKey k b)
  | .desc => decide (sortKey k b ≤ sortKey k a)

/-- Whether the given caller already has a vote on gameplay `g` in the store
(the prisma filter gameplayVotes none userId). -/
def votedBy (db : Db) (callerId : String) (g : Gameplay) : Bool :=
  db.votes.any (fun v => v.gameplayId == g.id && v.userId == callerId)

namespace gameplayRouter

/-- The getReviewItems query. The random skip offset (drawn uniformly below
the total record count) and the random sort key/direction are passed in as
parameters. The store is filtered to records the caller has not voted on,
ordered, and one record is taken after skipping `skip`; an empty result
throws NOT_FOUND. -/
def getReviewItems (db : Db) (caller : User) (skip : Nat)
    (k : OrderKey) (d : OrderDir) : Except TRPCCode Gameplay :=
  let elig := db.gameplays.filter (fun g => !votedBy db caller.id g)
  let sorted := elig.mergeSort (orderLe k d)
  match (sorted.drop skip).take 1 with
  | [] => .error .NOT_FOUND
  | g :: _ => .ok g

/-- The review mutation: a session user with a falsy id short-circuits with
the message "No user"; otherwise a vote record is created unconditionally
(no check for an existing vote by the same user on the same gameplay). -/
def review (db : Db) (caller : User) (gameplayId : String) (isGame : Bool)
    (actualGame : GameplayType) (voteId : String) :
    Except TRPCCode String × Db :=
  if caller.id == "" then (.ok "No user", db)
  else
    let v : GameplayVote :=
      { id := voteId
        gameplayId := gameplayId
        userId := caller.id
        isGame := isGame
        actualGame := actualGame }
    (.ok "Updated the gameplay document successfully.", { db with votes := db.votes ++ [v] })

end gameplayRouter

/-- Footage record of the backend controller (models/footage.interface):
the fields the controller constructs in `footageInput`. -/
structure Footage where
  uuid : String
  discordId : String
  username : String
  youtubeUrl : String
  isCsgoFootage : Bool
  isAnalyzed : Bool
  deriving DecidableEq, Repr

/-- Clip record of the backend (models/clip.interface): queried by its
`footage` field, which holds the uuid of the owning footage record. -/
structure Clip where
  uuid : String
  footage : String
  deriving DecidableEq, Repr

/-- The record store of the backend app. -/
structure BackendDb where
  footage : List Footage
  clips : List Clip
  deriving DecidableEq, Repr

/-- Outcome of a backend mutation: the returned value or thrown HTTP status,
the store afterwards, and the effect traces. -/
structure FootageOutcome where
  result : Except Nat Footage
  db : BackendDb
  downloads : List String
  clipJobs : List String
  deriving Repr

/-- POST /footage. The store is queried by youtubeUrl first and a found
record throws 400 before the resolver is called. `resolveOk` stands for
whether ytdl.getInfo accepts the URL; a rejection is caught and mapped to
406 with nothing downloaded. Otherwise the video is downloaded, the python
clip extractor is spawned, and when it closes the record is persisted with
isCsgoFootage and isAnalyzed both false. -/
def createFootage (db : BackendDb) (discordId username url footageId : String)
    (resolveOk : Bool) : FootageOutcome :=
  match db.footage.find? (fun f => f.youtubeUrl == url) with
  | some _ => { result := .error 400, db := db, downloads := [], clipJobs := [] }
  | none =>
    if !resolveOk then
      { result := .error 406, db := db, downloads := [], clipJobs := [] }
    else
      let footageInput : Footage :=
        { uuid := footageId
          discordId := discordId
          username := username
          youtubeUrl := url
          isCsgoFootage := false
          isAnalyzed := false }
      { result := .ok footageInput
        db := { db with footage := db.footage ++ [footageInput] }
        downloads := [url]
        clipJobs := [footageId] }

/-- GET /footage/user/:id. Footage.find by discordId; an empty result list
throws 404 instead of being returned. -/
def getUserFootage (db : BackendDb) (discordId : String) :
    Except Nat (List Footage) :=
  let footage := db.footage.filter (fun f => f.discordId == discordId)
  if footage.length == 0 then .error 404 else .ok footage

/-- GET /footage/clips/:uuid. Clip.find by owning footage uuid; an empty
result list throws 404 instead of being returned. -/
def getFootageClips (db : BackendDb) (uuid : String) : Except Nat (List Clip) :=
  let clips := db.clips.filter (fun c => c.footage == uuid)
  if clips.length == 0 then .error 404 else .ok clips

/-- PATCH /footage/:uuid. findOneAndUpdate applies isAnalyzed and
isCsgoFootage and returns the pre-update document; a null result raises the
412 error inside the try block, which the catch then rewraps as 418 (the
created http error is an Error instance), so a missing uuid surfaces as 418.
No permission check of any kind is performed. -/
def updateFootage (db : BackendDb) (uuid : String)
    (isAnalyzed isCsgoFootage : Bool) : Except Nat Footage × BackendDb :=
  match db.footage.find? (fun f => f.uuid == uuid) with
  | none => (.error 418, db)
  | some f =>
    (.ok f,
      { db with
          footage := db.footage.map (fun x =>
            if x.uuid == uuid then { x with isAnalyzed := isAnalyzed, isCsgoFootage := isCsgoFootage }
            else x) })

/-- DELETE /footage/:uuid. Footage.deleteOne by uuid; a deletedCount of zero
throws 404. Only the footage collection is touched: no clip delete is
issued. -/
def deleteFootage (db : BackendDb) (uuid : String) :
    Except Nat String × BackendDb :=
  let remaining := db.footage.filter (fun f => !(f.uuid == uuid))
  if remaining.length == db.footage.length then (.error 404, db)
  else (.ok "Footage deleted successfully.", { db with footage := remaining })

end Waldo

namespace Waldo

/-- Claim C1: for every URL already present in the record store, the ingestion
operation (createFootage on the backend, gameplayRouter create on the RPC
layer) fails with the duplicate-submission error (400 / BAD_REQUEST), performs
no download and starts no clip job, and leaves the store unchanged: the store
is queried by URL first and a found record aborts the request. -/
theorem c1_duplicate_rejected_before_download
    (db : Db) (caller : User) (url : String) (t : GameplayType) (info : YtInfo)
    (fid nid : String) (bdb : BackendDb) (did uname bfid : String) (rok : Bool)
    (h1 : ∃ g ∈ db.gameplays, g.youtubeUrl = url)
    (h2 : ∃ f ∈ bdb.footage, f.youtubeUrl = url) :
    (gameplayRouter.create db caller url t info fid nid).result = .error .BAD_REQUEST ∧
    (gameplayRouter.create db caller url t info fid nid).downloads = [] ∧
    (gameplayRouter.create db caller url t info fid nid).db = db ∧
    (createFootage bdb did uname url bfid rok).result = .error 400 ∧
    (createFootage bdb did uname url bfid rok).downloads = [] ∧
    (createFootage bdb did uname url bfid rok).db = bdb := by
  have hf1 : (db.gameplays.find? (fun g => g.youtubeUrl == url)).isSome := by
    rw [List.find?_isSome]
    obtain ⟨g, hg, he⟩ := h1
    exact ⟨g, hg, by simp [he]⟩
  have hf2 : (bdb.footage.find? (fun f => f.youtubeUrl == url)).isSome := by
    rw [List.find?_isSome]
    obtain ⟨f, hf, he⟩ := h2
    exact ⟨f, hf, by simp [he]⟩
  obtain ⟨g, hg⟩ := Option.isSome_iff_exists.mp hf1
  obtain ⟨f, hf⟩ := Option.isSome_iff_exists.mp hf2
  simp [gameplayRouter.create, createFootage, hg, hf]

/-- Witness for C1 at a concrete store holding the submitted URL. -/
theorem c1_witness :
    (∃ g ∈ [({ id := "g1", userId := "u1", youtubeUrl := "https://youtu.be/a",
               gameplayType := .VAL, isAnalyzed := false, isGameFootage := false,
               videoFormat := 299 } : Gameplay)], g.youtubeUrl = "https://youtu.be/a") ∧
    (gameplayRouter.create
        ⟨[{ id := "g1", userId := "u1", youtubeUrl := "https://youtu.be/a",
            gameplayType := .VAL, isAnalyzed := false, isGameFootage := false,
            videoFormat := 299 }], [], []⟩
        ⟨"u2", .user, false⟩ "https://youtu.be/a" .VAL ⟨[⟨299⟩]⟩ "f1" "n1").downloads = [] := by
  refine ⟨by decide, ?_⟩
  exact (c1_duplicate_rejected_before_download
      ⟨[{ id := "g1", userId := "u1", youtubeUrl := "https://youtu.be/a",
          gameplayType := .VAL, isAnalyzed := false, isGameFootage := false,
          videoFormat := 299 }], [], []⟩
      ⟨"u2", .user, false⟩ "https://youtu.be/a" .VAL ⟨[⟨299⟩]⟩ "f1" "n1"
      ⟨[{ uuid := "b1", discordId := "d1", username := "alice",
          youtubeUrl := "https://youtu.be/a", isCsgoFootage := false, isAnalyzed := false }], []⟩
      "d2" "bob" "f2" true (by decide) (by decide)).2.1

end Waldo

namespace Waldo

/-- Claim C2 counterexample: at a store not containing the URL and a resolver
response whose only format is itag 137 (neither 299, 298 nor 136), the create
mutation does fail with BAD_REQUEST, yet its download trace is nonempty: the
download is performed before the format check, refuting the claim that no
download is performed for such a request. -/
theorem c2_counterexample :
    (gameplayRouter.create ⟨[], [], []⟩ ⟨"u1", .user, false⟩ "https://youtu.be/x"
        .VAL ⟨[⟨137⟩]⟩ "f1" "n1").result = .error .BAD_REQUEST ∧
    (gameplayRouter.create ⟨[], [], []⟩ ⟨"u1", .user, false⟩ "https://youtu.be/x"
        .VAL ⟨[⟨137⟩]⟩ "f1" "n1").downloads ≠ [] := by
  constructor
  · rfl
  · decide

/-- Claim C2 amended: for every resolver response whose format list contains
none of the itags 299, 298 and 136, and a URL not already in the store, the
create mutation fails with BAD_REQUEST and persists nothing — but the
download and the clip-extraction invocation are performed before the format
check, so exactly one download is carried out for the request. -/
theorem c2_no_acceptable_format_rejected_after_download
    (db : Db) (caller : User) (url : String) (t : GameplayType) (info : YtInfo)
    (fid nid : String)
    (hdup : ∀ g ∈ db.gameplays, g.youtubeUrl ≠ url)
    (hfmt : ∀ f ∈ info.formats, f.itag ≠ 299 ∧ f.itag ≠ 298 ∧ f.itag ≠ 136) :
    (gameplayRouter.create db caller url t info fid nid).result = .error .BAD_REQUEST ∧
    (gameplayRouter.create db caller url t info fid nid).db = db ∧
    (gameplayRouter.create db caller url t info fid nid).downloads = [url] ∧
    (gameplayRouter.create db caller url t info fid nid).clipJobs = [fid] := by
  have hnone : db.gameplays.find? (fun g => g.youtubeUrl == url) = none := by
    rw [List.find?_eq_none]
    intro g hg
    simp [hdup g hg]
  have h299 : info.formats.find? (fun f => f.itag == 299) = none := by
    rw [List.find?_eq_none]
    intro f hf
    simp [(hfmt f hf).1]
  have h298 : info.formats.find? (fun f => f.itag == 298) = none := by
    rw [List.find?_eq_none]
    intro f hf
    simp [(hfmt f hf).2.1]
  have h136 : info.formats.find? (fun f => f.itag == 136) = none := by
    rw [List.find?_eq_none]
    intro f hf
    simp [(hfmt f hf).2.2]
  simp [gameplayRouter.create, hnone, h299, h298, h136, Option.orElse]

/-- Witness for the amended C2 at a concrete store and resolver response. -/
theorem c2_witness :
    (∀ g ∈ ([] : List Gameplay), g.youtubeUrl ≠ "https://youtu.be/x") ∧
    (∀ f ∈ [(⟨137⟩ : YtFormat)], f.itag ≠ 299 ∧ f.itag ≠ 298 ∧ f.itag ≠ 136) ∧
    (gameplayRouter.create ⟨[], [], []⟩ ⟨"u2", .user, false⟩ "https://youtu.be/x"
        .VAL ⟨[⟨137⟩]⟩ "f2" "n2").downloads = ["https://youtu.be/x"] := by
  refine ⟨by decide, by decide, ?_⟩
  exact (c2_no_acceptable_format_rejected_after_download ⟨[], [], []⟩
      ⟨"u2", .user, false⟩ "https://youtu.be/x" .VAL ⟨[⟨137⟩]⟩ "f2" "n2"
      (by decide) (by decide)).2.2.1

end Waldo

namespace Waldo

/-- Claim C3 counterexample: on the path-style HTTP API, an update flipping
isAnalyzed on an existing record succeeds and the stored record reflects the
new flag, even though the request carries no caller identity at all — the
endpoint performs no permission check, so a non-moderator update does not
fail with Unauthorized and does not leave the record unchanged. -/
theorem c3_counterexample :
    (updateFootage
        ⟨[⟨"123e4567-e89b-12d3-a456-426614174000", "d1", "alice",
           "https://youtu.be/x", false, false⟩], []⟩
        "123e4567-e89b-12d3-a456-426614174000" true false).1
      = .ok ⟨"123e4567-e89b-12d3-a456-426614174000", "d1", "alice",
             "https://youtu.be/x", false, false⟩ ∧
    (updateFootage
        ⟨[⟨"123e4567-e89b-12d3-a456-426614174000", "d1", "alice",
           "https://youtu.be/x", false, false⟩], []⟩
        "123e4567-e89b-12d3-a456-426614174000" true false).2
      = ⟨[⟨"123e4567-e89b-12d3-a456-426614174000", "d1", "alice",
           "https://youtu.be/x", false, true⟩], []⟩ := ⟨rfl, rfl⟩

/-- Claim C3 amended: only the RPC layer gates the analysis flag. There, when
the flag value changes, an ordinary-role caller is refused — surfaced as
INTERNAL_SERVER_ERROR because the catch-all rewraps the inner Unauthorized —
and the store is unchanged, while a non-blacklisted moderator succeeds and
the stored record reflects the new flag. The path-style HTTP API performs no
permission check: any update request rewrites the flags of the matched
record. -/
theorem c3_analysis_flag_permission
    (db : Db) (caller : User) (gid : String) (t : GameplayType) (b : Bool)
    (g : Gameplay) (bdb : BackendDb) (uuid : String) (b2 c2 : Bool) (f : Footage)
    (hg : db.gameplays.find? (fun x => x.id == gid) = some g)
    (hchange : g.isAnalyzed ≠ b)
    (hf : bdb.footage.find? (fun x => x.uuid == uuid) = some f) :
    (caller.role = .user →
      gameplayRouter.update db caller gid t b = (.error .INTERNAL_SERVER_ERROR, db)) ∧
    (caller.role = .mod → caller.blacklisted = false →
      gameplayRouter.update db caller gid t b =
        (.ok { g with isAnalyzed := b, gameplayType := t },
         { db with gameplays := db.gameplays.map (fun x =>
             if x.id == gid then { g with isAnalyzed := b, gameplayType := t } else x) })) ∧
    ((updateFootage bdb uuid b2 c2).1 = .ok f ∧
     (updateFootage bdb uuid b2 c2).2.footage = bdb.footage.map (fun x =>
       if x.uuid == uuid then { x with isAnalyzed := b2, isCsgoFootage := c2 } else x)) := by
  have hreq : (g.isAnalyzed == b) = false := by simp [hchange]
  refine ⟨?_, ?_, ?_, ?_⟩
  · intro hrole
    cases hb : caller.blacklisted <;>
      simp [gameplayRouter.update, hg, hreq, hasPerms, hrole, hb]
  · intro hrole hbl
    simp [gameplayRouter.update, hg, hreq, hasPerms, hrole, hbl]
  · simp [updateFootage, hf]
  · simp [updateFootage, hf]

/-- Witness for the amended C3 at a concrete store, ordinary caller and
moderator caller. -/
theorem c3_witness :
    ([({ id := "g1", userId := "u1", youtubeUrl := "https://youtu.be/x",
         gameplayType := .VAL, isAnalyzed := false, isGameFootage := false,
         videoFormat := 299 } : Gameplay)].find? (fun x => x.id == "g1")
      = some { id := "g1", userId := "u1", youtubeUrl := "https://youtu.be/x",
               gameplayType := .VAL, isAnalyzed := false, isGameFootage := false,
               videoFormat := 299 }) ∧
    (gameplayRouter.update
        ⟨[{ id := "g1", userId := "u1", youtubeUrl := "https://youtu.be/x",
            gameplayType := .VAL, isAnalyzed := false, isGameFootage := false,
            videoFormat := 299 }], [], []⟩
        ⟨"u1", .user, false⟩ "g1" .VAL true
      = (.error .INTERNAL_SERVER_ERROR,
         ⟨[{ id := "g1", userId := "u1", youtubeUrl := "https://youtu.be/x",
             gameplayType := .VAL, isAnalyzed := false, isGameFootage := false,
             videoFormat := 299 }], [], []⟩)) := by
  refine ⟨by decide, ?_⟩
  exact (c3_analysis_flag_permission
      ⟨[{ id := "g1", userId := "u1", youtubeUrl := "https://youtu.be/x",
          gameplayType := .VAL, isAnalyzed := false, isGameFootage := false,
          videoFormat := 299 }], [], []⟩
      ⟨"u1", .user, false⟩ "g1" .VAL true
      { id := "g1", userId := "u1", youtubeUrl := "https://youtu.be/x",
        gameplayType := .VAL, isAnalyzed := false, isGameFootage := false,
        videoFormat := 299 }
      ⟨[⟨"b1", "d1", "alice", "https://youtu.be/y", false, false⟩], []⟩
      "b1" true false
      ⟨"b1", "d1", "alice", "https://youtu.be/y", false, false⟩
      (by decide) (by decide) (by decide)).1 rfl

end Waldo

namespace Waldo

/-- Claim C4 counterexample: deleting an existing gameplay record (by its
owner, on the RPC layer) removes the gameplay record but leaves its vote and
clip records in the store, and deleting a footage record on the backend
leaves its clip records in the store — no secondary deletes are issued,
refuting the claim that the delete operation removes all clip and vote
records of the parent. -/
theorem c4_counterexample :
    gameplayRouter.delete
        ⟨[{ id := "g1", userId := "u1", youtubeUrl := "https://youtu.be/x",
            gameplayType := .VAL, isAnalyzed := false, isGameFootage := false,
            videoFormat := 299 }],
         [⟨"v1", "g1", "u9", true, .VAL⟩], [⟨"c1", "g1"⟩]⟩
        ⟨"u1", .user, false⟩ "g1"
      = (.ok (), ⟨[], [⟨"v1", "g1", "u9", true, .VAL⟩], [⟨"c1", "g1"⟩]⟩) ∧
    deleteFootage ⟨[⟨"b1", "d1", "alice", "https://youtu.be/y", false, false⟩],
                   [⟨"k1", "b1"⟩]⟩ "b1"
      = (.ok "Footage deleted successfully.", ⟨[], [⟨"k1", "b1"⟩]⟩) := ⟨rfl, rfl⟩

/-- Claim C4 amended: the delete operations remove only the parent record.
On both layers the vote and clip collections are left exactly as they were:
no explicit secondary delete of clips or votes is issued by either delete
operation. -/
theorem c4_delete_touches_only_parent
    (db : Db) (caller : User) (gid : String) (bdb : BackendDb) (uuid : String) :
    (gameplayRouter.delete db caller gid).2.votes = db.votes ∧
    (gameplayRouter.delete db caller gid).2.clips = db.clips ∧
    (deleteFootage bdb uuid).2.clips = bdb.clips := by
  refine ⟨?_, ?_, ?_⟩
  · unfold gameplayRouter.delete
    split
    · rfl
    · split <;> rfl
  · unfold gameplayRouter.delete
    split
    · rfl
    · split <;> rfl
  · unfold deleteFootage
    dsimp only
    split <;> rfl

end Waldo

namespace Waldo

/-- Claim C5 counterexample: with a vote by user u1 on gameplay g1 already in
the store, a second review submission by u1 for g1 succeeds and appends a
second vote record for the same (user, footage) pair — the mutation performs
no existence check and does not refuse the second vote. -/
theorem c5_counterexample :
    gameplayRouter.review
        ⟨[{ id := "g1", userId := "u9", youtubeUrl := "https://youtu.be/x",
            gameplayType := .VAL, isAnalyzed := false, isGameFootage := false,
            videoFormat := 299 }],
         [⟨"v1", "g1", "u1", true, .VAL⟩], []⟩
        ⟨"u1", .user, false⟩ "g1" false .CSG "v2"
      = (.ok "Updated the gameplay document successfully.",
         ⟨[{ id := "g1", userId := "u9", youtubeUrl := "https://youtu.be/x",
             gameplayType := .VAL, isAnalyzed := false, isGameFootage := false,
             videoFormat := 299 }],
          [⟨"v1", "g1", "u1", true, .VAL⟩, ⟨"v2", "g1", "u1", false, .CSG⟩], []⟩) := rfl

/-- Claim C5 amended: the review mutation creates a vote record
unconditionally for any caller with a non-empty id — it never queries for an
existing vote by the same user on the same footage, so the at-most-one-vote
invariant is not enforced by this operation. -/
theorem c5_review_creates_vote_unconditionally
    (db : Db) (caller : User) (gid : String) (isGame : Bool)
    (actualGame : GameplayType) (vid : String)
    (hid : caller.id ≠ "") :
    gameplayRouter.review db caller gid isGame actualGame vid
      = (.ok "Updated the gameplay document successfully.",
         { db with votes := db.votes ++
             [{ id := vid, gameplayId := gid, userId := caller.id,
                isGame := isGame, actualGame := actualGame }] }) := by
  simp [gameplayRouter.review, hid]

/-- Witness for the amended C5 on a store that already holds a vote by the
same caller on the same gameplay. -/
theorem c5_witness :
    ("u1" : String) ≠ "" ∧
    (gameplayRouter.review ⟨[], [⟨"v1", "g1", "u1", true, .VAL⟩], []⟩
        ⟨"u1", .user, false⟩ "g1" true .VAL "v2").2.votes
      = [⟨"v1", "g1", "u1", true, .VAL⟩, ⟨"v2", "g1", "u1", true, .VAL⟩] := by
  refine ⟨by decide, ?_⟩
  rw [c5_review_creates_vote_unconditionally ⟨[], [⟨"v1", "g1", "u1", true, .VAL⟩], []⟩
      ⟨"u1", .user, false⟩ "g1" true .VAL "v2" (by decide)]
  rfl

/-- Claim C6: a blacklisted caller is denied everywhere: the isAuthed
middleware wrapped around every procedure answers FORBIDDEN whatever handler
would have run, and the permission evaluator returns false for every
combination of caller id, role, resource owner and required level. -/
theorem c6_blacklisted_always_denied (u : User) (hb : u.blacklisted = true) :
    (∀ (α : Type) (handler : User → Except TRPCCode α),
        protectedCall (some u) handler = .error .FORBIDDEN) ∧
    (∀ (ownerId : String) (req : Perms),
        hasPerms u.id u.role ownerId req true = false) := by
  constructor
  · intro α handler
    simp [protectedCall, hb]
  · intro ownerId req
    simp [hasPerms]

/-- Witness for C6 at a concrete blacklisted admin caller. -/
theorem c6_witness :
    (({ id := "u1", role := .admin, blacklisted := true } : User).blacklisted = true) ∧
    protectedCall (some ⟨"u1", .admin, true⟩) (fun u => .ok u.id) = .error .FORBIDDEN ∧
    hasPerms "u1" .admin "u1" .isOwner true = false := by
  refine ⟨by decide, ?_, ?_⟩
  · exact (c6_blacklisted_always_denied ⟨"u1", .admin, true⟩ (by decide)).1 String
      (fun u => .ok u.id)
  · exact (c6_blacklisted_always_denied ⟨"u1", .admin, true⟩ (by decide)).2 "u1" .isOwner

end Waldo

namespace Waldo

/-- Claim C7: for every page number of at least 1, the paginated category
listing succeeds and returns the records obtained by skipping page*10-10
entries of the category-filtered list and taking 10, so at most 10 records;
for page 2 in particular the entries are exactly those at offsets 10 through
19 of the filtered list. -/
theorem c7_pagination (db : Db) (page : Int) (t : GameplayType) (hp : 1 ≤ page) :
    ∃ l, gameplayRouter.getMany db page (some t) = .ok l ∧
      l = ((db.gameplays.filter (fun g => g.gameplayType == t)).drop
            (page * 10 - 10).toNat).take 10 ∧
      l.length ≤ 10 ∧
      (page = 2 → ∀ i : Nat, i < 10 →
        l[i]? = (db.gameplays.filter (fun g => g.gameplayType == t))[10 + i]?) := by
  have hskip : ¬ ((page * 10 - 10 : Int) < 0) := by omega
  refine ⟨_, ?_, rfl, ?_, ?_⟩
  · simp [gameplayRouter.getMany, hskip]
  · exact List.length_take_le _ _
  · intro hpage i hi
    subst hpage
    have h10 : (((2 : Int) * 10 - 10).toNat) = 10 := by decide
    rw [h10]
    rw [List.getElem?_take]
    simp [hi, List.getElem?_drop]

/-- Witness for C7 at page 2 over a concrete store. -/
theorem c7_witness :
    (1 : Int) ≤ 2 ∧
    (∃ l, gameplayRouter.getMany ⟨[], [], []⟩ 2 (some .VAL) = .ok l ∧
      l = ((([] : List Gameplay).filter (fun g => g.gameplayType == GameplayType.VAL)).drop
            ((2 : Int) * 10 - 10).toNat).take 10 ∧
      l.length ≤ 10 ∧
      ((2 : Int) = 2 → ∀ i : Nat, i < 10 →
        l[i]? = (([] : List Gameplay).filter
          (fun g => g.gameplayType == GameplayType.VAL))[10 + i]?)) :=
  ⟨by decide, c7_pagination ⟨[], [], []⟩ 2 .VAL (by decide)⟩

/-- Claim C8: every record persisted by a successful ingestion carries
isAnalyzed = false and the confirmed-game-footage flag = false, on the RPC
layer and on the path-style HTTP API. -/
theorem c8_created_record_flags_false
    (db : Db) (caller : User) (url : String) (t : GameplayType) (info : YtInfo)
    (fid nid : String) (g : Gameplay)
    (bdb : BackendDb) (did uname burl bfid : String) (rok : Bool) (f : Footage)
    (h1 : (gameplayRouter.create db caller url t info fid nid).result = .ok g)
    (h2 : (createFootage bdb did uname burl bfid rok).result = .ok f) :
    g.isAnalyzed = false ∧ g.isGameFootage = false ∧
    f.isAnalyzed = false ∧ f.isCsgoFootage = false := by
  have hg : g.isAnalyzed = false ∧ g.isGameFootage = false := by
    unfold gameplayRouter.create at h1
    split at h1
    · simp at h1
    · dsimp only at h1
      split at h1 <;> try split at h1
      all_goals dsimp only at h1
      all_goals
        first
          | (simp only [Except.ok.injEq] at h1
             subst h1
             exact ⟨rfl, rfl⟩)
          | simp at h1
  have hf : f.isAnalyzed = false ∧ f.isCsgoFootage = false := by
    unfold createFootage at h2
    split at h2
    · simp at h2
    · dsimp only at h2
      split at h2 <;> try split at h2
      all_goals dsimp only at h2
      all_goals
        first
          | (simp only [Except.ok.injEq] at h2
             subst h2
             exact ⟨rfl, rfl⟩)
          | simp at h2
  exact ⟨hg.1, hg.2, hf.1, hf.2⟩

/-- Witness for C8 on concrete successful creations on both layers. -/
theorem c8_witness :
    (gameplayRouter.create ⟨[], [], []⟩ ⟨"u1", .user, false⟩ "https://youtu.be/x"
        .VAL ⟨[⟨299⟩]⟩ "f1" "n1").result
      = .ok { id := "n1", userId := "u1", youtubeUrl := "https://youtu.be/x",
              gameplayType := .VAL, isAnalyzed := false, isGameFootage := false,
              videoFormat := 299 } ∧
    (createFootage ⟨[], []⟩ "d1" "alice" "https://youtu.be/y" "b1" true).result
      = .ok ⟨"b1", "d1", "alice", "https://youtu.be/y", false, false⟩ ∧
    (false = false ∧ false = false ∧ false = false ∧ false = false) := by
  refine ⟨rfl, rfl, ?_⟩
  exact c8_created_record_flags_false ⟨[], [], []⟩ ⟨"u1", .user, false⟩
      "https://youtu.be/x" .VAL ⟨[⟨299⟩]⟩ "f1" "n1"
      { id := "n1", userId := "u1", youtubeUrl := "https://youtu.be/x",
        gameplayType := .VAL, isAnalyzed := false, isGameFootage := false,
        videoFormat := 299 }
      ⟨[], []⟩ "d1" "alice" "https://youtu.be/y" "b1" true
      ⟨"b1", "d1", "alice", "https://youtu.be/y", false, false⟩ rfl rfl

end Waldo

namespace Waldo

/-- Claim C9: whatever skip offset and sort key/direction the random draws
produce, any record returned by getReviewItems belongs to the store and
carries no vote by the caller; and when every record in the store already has
a vote by the caller — in particular when the store is empty — the query
fails with NOT_FOUND. -/
theorem c9_review_item_unvoted
    (db : Db) (caller : User) (skip : Nat) (k : OrderKey) (d : OrderDir) :
    (∀ g, gameplayRouter.getReviewItems db caller skip k d = .ok g →
        g ∈ db.gameplays ∧ votedBy db caller.id g = false) ∧
    ((∀ g ∈ db.gameplays, votedBy db caller.id g = true) →
        gameplayRouter.getReviewItems db caller skip k d = .error .NOT_FOUND) := by
  constructor
  · intro g hg
    unfold gameplayRouter.getReviewItems at hg
    dsimp only at hg
    split at hg
    · simp at hg
    · rename_i g2 tl heq
      simp only [Except.ok.injEq] at hg
      subst hg
      have hmem1 : g2 ∈ (((db.gameplays.filter (fun x => !votedBy db caller.id x)).mergeSort
          (orderLe k d)).drop skip).take 1 := by
        rw [heq]
        exact List.mem_cons_self g2 tl
      have hmem2 := List.mem_of_mem_drop (List.mem_of_mem_take hmem1)
      have hmem3 := List.mem_mergeSort.mp hmem2
      have hmem4 := List.mem_filter.mp hmem3
      refine ⟨hmem4.1, ?_⟩
      have := hmem4.2
      simpa using this
  · intro hall
    have hnil : db.gameplays.filter (fun g => !votedBy db caller.id g) = [] := by
      rw [List.filter_eq_nil_iff]
      intro g hgmem
      simp [hall g hgmem]
    unfold gameplayRouter.getReviewItems
    rw [hnil]
    simp [List.drop_nil]

/-- Witness for C9 on the empty store. -/
theorem c9_witness :
    (∀ g ∈ ([] : List Gameplay), votedBy ⟨[], [], []⟩ "u1" g = true) ∧
    gameplayRouter.getReviewItems ⟨[], [], []⟩ ⟨"u1", .user, false⟩ 0 .id .asc
      = .error .NOT_FOUND := by
  refine ⟨by decide, ?_⟩
  exact (c9_review_item_unvoted ⟨[], [], []⟩ ⟨"u1", .user, false⟩ 0 .id .asc).2
      (by decide)

/-- Claim C10: a user id matching no footage record makes the get-by-owner
endpoint fail with 404 rather than answer an empty list, and a footage uuid
matching no clip record makes the list-clips endpoint fail with 404 rather
than answer an empty list. -/
theorem c10_empty_results_are_404
    (db : BackendDb) (did uuid : String)
    (h1 : db.footage.filter (fun f => f.discordId == did) = [])
    (h2 : db.clips.filter (fun c => c.footage == uuid) = []) :
    getUserFootage db did = .error 404 ∧ getFootageClips db uuid = .error 404 := by
  constructor
  · unfold getUserFootage
    rw [h1]
    rfl
  · unfold getFootageClips
    rw [h2]
    rfl

/-- Witness for C10 on the empty store. -/
theorem c10_witness :
    (([] : List Footage).filter (fun f => f.discordId == "d1") = []) ∧
    (([] : List Clip).filter (fun c => c.footage == "b1") = []) ∧
    (getUserFootage ⟨[], []⟩ "d1" = .error 404 ∧ getFootageClips ⟨[], []⟩ "b1" = .error 404) :=
  ⟨rfl, rfl, c10_empty_results_are_404 ⟨[], []⟩ "d1" "b1" rfl rfl⟩

end Waldo
